import Mathlib

/-!
Verification development for the openclaw-guardian decision gate.

The TypeScript sources are shallowly embedded in Lean:
* `Rx`            — a small regular-expression engine used to embed the
                    `RegExp` rule tables literally (priority-ordered matching,
                    mirroring JavaScript leftmost-greedy `exec` semantics for
                    the feature subset the rules use: character classes, `\s`,
                    `\b`, `.`, alternation, star over classes, `^`, `$`, and
                    negative lookahead);
* `Blacklist`     — src/blacklist.ts (pattern classifier);
* `RiskAssessor`  — src/risk-assessor.ts (risk scorer);
* `GuardianVoter` — src/guardian-voter.ts (review engine);
* `AuditLog`      — src/audit-log.ts (hash-chain audit ledger), parameterised
                    over the hash function;
* `PluginIndex`   — the plugin entry point (trust budget and default policies).
-/

namespace Rx

/-- JavaScript `\s` for the ASCII range (the rule sets only meet ASCII input). -/
def wsChar (c : Char) : Bool :=
  c = ' ' || c = '\t' || c = '\n' || c = '\r' || c = '\x0b' || c = '\x0c'

/-- JavaScript `\w`: `[A-Za-z0-9_]`. -/
def wordChar (c : Char) : Bool :=
  ('a' ≤ c && c ≤ 'z') || ('A' ≤ c && c ≤ 'Z') || ('0' ≤ c && c ≤ '9') || c = '_'

/-- JavaScript `.` (no `s` flag): any char except line terminators. -/
def dotChar (c : Char) : Bool :=
  !(c = '\n' || c = '\r' || c.val = 0x2028 || c.val = 0x2029)

/-- Embeds `[a-zA-Z]`. -/
def asciiLetter (c : Char) : Bool :=
  ('a' ≤ c && c ≤ 'z') || ('A' ≤ c && c ≤ 'Z')

/-- Regular expressions over the feature subset used by the guardian's rules.
`star` is restricted to character classes, which is all the sources use
(every starred subpattern in the rule tables is a character class). -/
inductive Reg where
  | eps
  | cls (p : Char → Bool)
  | cat (a b : Reg)
  | alt (a b : Reg)
  | star (p : Char → Bool)
  | wordB
  | bos
  | eos
  | nla (r : Reg)

def dedupAux : Nat → List Nat → List Nat
  | 0, _ => []
  | _, [] => []
  | fuel + 1, x :: xs => x :: dedupAux fuel (xs.filter (fun y => y != x))

/-- Remove duplicates, keeping the first (highest-priority) occurrence. -/
def dedup (l : List Nat) : List Nat := dedupAux l.length l

def isWordAt (s : List Char) (i : Nat) : Bool :=
  match s.get? i with
  | some c => wordChar c
  | none => false

/-- All end positions of a match of `r` starting at position `i` of `s`,
in backtracking priority order (head = the end JavaScript would pick). -/
def runr (s : List Char) : Reg → Nat → List Nat
  | .eps, i => [i]
  | .cls p, i =>
    match s.get? i with
    | some c => if p c then [i + 1] else []
    | none => []
  | .cat a b, i => dedup (((runr s a i).map (fun j => runr s b j)).flatten)
  | .alt a b, i => dedup (runr s a i ++ runr s b i)
  | .star p, i =>
    let k := ((s.drop i).takeWhile p).length
    (List.range (k + 1)).map (fun d => i + k - d)
  | .wordB, i =>
    let before := if i = 0 then false else isWordAt s (i - 1)
    if before != isWordAt s i then [i] else []
  | .bos, i => if i = 0 then [i] else []
  | .eos, i => if i = s.length then [i] else []
  | .nla r, i => if (runr s r i).isEmpty then [i] else []

/-- Embeds `RegExp.exec(s).index`: the smallest start position admitting a match. -/
def execIdx (r : Reg) (s : String) : Option Nat :=
  (List.range (s.length + 1)).find? (fun i => !(runr s.data r i).isEmpty)

/-- Embeds `RegExp.exec`: start and end position of the leftmost-greedy match. -/
def execFirst (r : Reg) (s : String) : Option (Nat × Nat) :=
  match execIdx r s with
  | none => none
  | some i =>
    match (runr s.data r i).head? with
    | some j => some (i, j)
    | none => none

/-- Embeds `RegExp.test`. -/
def regTest (r : Reg) (s : String) : Bool := (execIdx r s).isSome

/-- A literal character. -/
def chr (c : Char) : Reg := .cls (fun x => x = c)

/-- A literal character under the `i` flag. -/
def ichr (c : Char) : Reg := .cls (fun x => x.toLower = c.toLower)

/-- A literal string. -/
def strR (t : String) : Reg := t.data.foldr (fun c r => .cat (chr c) r) .eps

/-- A literal string under the `i` flag. -/
def istrR (t : String) : Reg := t.data.foldr (fun c r => .cat (ichr c) r) .eps

/-- Sequencing of a list of regexes. -/
def seq (rs : List Reg) : Reg := rs.foldr .cat .eps

/-- A regex that never matches (used as the empty alternation). -/
def failR : Reg := .nla .eps

/-- Alternation of a list, in priority order. -/
def alts (rs : List Reg) : Reg := rs.foldr .alt failR

/-- Embeds `(?:r)?` (greedy). -/
def opt (r : Reg) : Reg := .alt r .eps

/-- Embeds `\s+`. -/
def ws1 : Reg := .cat (.cls wsChar) (.star wsChar)

/-- Embeds `\s*`. -/
def ws0 : Reg := .star wsChar

/-- Embeds `.*`. -/
def dotStar : Reg := .star dotChar

/-- Embeds `[a-zA-Z]*`. -/
def letters0 : Reg := .star asciiLetter

/-- A character class listed by its members. -/
def clsOf (cs : List Char) : Reg := .cls (fun x => cs.contains x)

end Rx

namespace Blacklist

/-- Blacklist severity levels (`"critical" | "warning"` in blacklist.ts). -/
inductive Level where
  | critical
  | warning
deriving DecidableEq, Repr

/-- Embeds `BlacklistMatch` from blacklist.ts; `pattern` is the regex source text. -/
structure BlacklistMatch where
  level : Level
  pattern : String
  reason : String
deriving DecidableEq, Repr

/-- Embeds `Rule` from blacklist.ts, carrying the embedded regex together with its
source text (what `rule.pattern.source` yields). -/
structure Rule where
  pattern : Rx.Reg
  src : String
  reason : String

/-- Embeds `-[a-zA-Z]*r[a-zA-Z]*`. -/
def rmFlags : Rx.Reg :=
  Rx.seq [Rx.chr '-', Rx.letters0, Rx.chr 'r', Rx.letters0]

/-- Embeds `(?:passwd|shadow|sudoers)`. -/
def authFiles : Rx.Reg :=
  Rx.alts [Rx.strR "passwd", Rx.strR "shadow", Rx.strR "sudoers"]

/-- CRITICAL_EXEC rule 1: `/rm\s+(-[a-zA-Z]*r[a-zA-Z]*\s+|--recursive\s+)\/(?!tmp\/|home\/clawdbot\/)/`. -/
def rmRootRule : Rule :=
  ⟨Rx.seq [Rx.strR "rm", Rx.ws1,
      Rx.Reg.alt (Rx.Reg.cat rmFlags Rx.ws1) (Rx.Reg.cat (Rx.strR "--recursive") Rx.ws1),
      Rx.chr '/', Rx.Reg.nla (Rx.Reg.alt (Rx.strR "tmp/") (Rx.strR "home/clawdbot/"))],
    "rm\\s+(-[a-zA-Z]*r[a-zA-Z]*\\s+|--recursive\\s+)\\/(?!tmp\\/|home\\/clawdbot\\/)",
    "rm -rf on root-level system path"⟩

/-- CRITICAL_EXEC rule 8: `/\b(?:shutdown|reboot)\b/`. -/
def shutdownRule : Rule :=
  ⟨Rx.seq [Rx.Reg.wordB, Rx.Reg.alt (Rx.strR "shutdown") (Rx.strR "reboot"), Rx.Reg.wordB],
    "\\b(?:shutdown|reboot)\\b",
    "system shutdown/reboot"⟩

/-- Embeds `CRITICAL_EXEC` from blacklist.ts, in declaration order. -/
def CRITICAL_EXEC : List Rule :=
  [ rmRootRule,
    ⟨Rx.seq [Rx.strR "rm", Rx.ws1,
        Rx.Reg.alt (Rx.Reg.cat rmFlags Rx.ws1) (Rx.Reg.cat (Rx.strR "--recursive") Rx.ws1),
        Rx.strR "~/"],
      "rm\\s+(-[a-zA-Z]*r[a-zA-Z]*\\s+|--recursive\\s+)~\\/",
      "rm -rf on home directory"⟩,
    ⟨Rx.Reg.cat (Rx.strR "mkfs") Rx.Reg.wordB, "mkfs\\b", "filesystem format (mkfs)"⟩,
    ⟨Rx.seq [Rx.strR "dd", Rx.ws1, Rx.strR "if=", Rx.dotStar, Rx.strR "of=/dev/"],
      "dd\\s+if=.*of=\\/dev\\/", "raw disk write (dd)"⟩,
    ⟨Rx.seq [Rx.chr '>', Rx.ws0, Rx.strR "/dev/sd"],
      ">\\s*\\/dev\\/sd", "redirect to block device"⟩,
    ⟨Rx.seq [Rx.Reg.alt (Rx.strR "tee") (Rx.Reg.cat (Rx.chr '>') (Rx.opt (Rx.chr '>'))),
        Rx.ws0, Rx.strR "/etc/", authFiles],
      "(?:tee|>>?)\\s*\\/etc\\/(?:passwd|shadow|sudoers)", "write to system auth file"⟩,
    ⟨Rx.seq [Rx.strR "sed", Rx.ws1, Rx.strR "-i", Rx.dotStar, Rx.strR "/etc/", authFiles],
      "sed\\s+-i.*\\/etc\\/(?:passwd|shadow|sudoers)", "in-place edit of system auth file"⟩,
    shutdownRule,
    ⟨Rx.seq [Rx.Reg.wordB, Rx.strR "init", Rx.ws1, Rx.clsOf ['0', '6'], Rx.Reg.wordB],
      "\\binit\\s+[06]\\b", "system halt/reboot (init)"⟩,
    ⟨Rx.seq [Rx.strR "systemctl", Rx.ws1, Rx.Reg.alt (Rx.strR "stop") (Rx.strR "disable"),
        Rx.ws1, Rx.strR "sshd"],
      "systemctl\\s+(?:stop|disable)\\s+sshd", "disable SSH (remote lockout)"⟩,
    ⟨Rx.seq [Rx.strR "/bin/rm", Rx.ws1, rmFlags, Rx.ws1],
      "\\/bin\\/rm\\s+(-[a-zA-Z]*r[a-zA-Z]*)\\s+", "rm via absolute path"⟩,
    ⟨Rx.seq [Rx.strR "/usr/bin/rm", Rx.ws1, rmFlags, Rx.ws1],
      "\\/usr\\/bin\\/rm\\s+(-[a-zA-Z]*r[a-zA-Z]*)\\s+", "rm via absolute path"⟩,
    ⟨Rx.seq [Rx.strR "xargs", Rx.ws1, Rx.dotStar, Rx.Reg.wordB, Rx.strR "rm", Rx.Reg.wordB],
      "xargs\\s+.*\\brm\\b", "xargs rm (indirect deletion)"⟩,
    ⟨Rx.seq [Rx.strR "xargs", Rx.ws1, Rx.dotStar, Rx.Reg.wordB, Rx.strR "chmod", Rx.Reg.wordB],
      "xargs\\s+.*\\bchmod\\b", "xargs chmod (indirect permission change)"⟩,
    ⟨Rx.seq [Rx.strR "find", Rx.ws1, Rx.dotStar, Rx.strR "-exec", Rx.ws1, Rx.dotStar,
        Rx.Reg.wordB, Rx.strR "rm", Rx.Reg.wordB],
      "find\\s+.*-exec\\s+.*\\brm\\b", "find -exec rm (indirect deletion)"⟩,
    ⟨Rx.seq [Rx.strR "find", Rx.ws1, Rx.dotStar, Rx.strR "-delete", Rx.Reg.wordB],
      "find\\s+.*-delete\\b", "find -delete (bulk deletion)"⟩ ]

/-- Embeds `WARNING_EXEC` from blacklist.ts, in declaration order. -/
def WARNING_EXEC : List Rule :=
  [ ⟨Rx.seq [Rx.strR "rm", Rx.ws1, rmFlags, Rx.ws1],
      "rm\\s+(-[a-zA-Z]*r[a-zA-Z]*)\\s+", "recursive file deletion"⟩,
    ⟨Rx.seq [Rx.Reg.wordB, Rx.strR "sudo", Rx.ws1],
      "\\bsudo\\s+", "privilege escalation (sudo)"⟩,
    ⟨Rx.seq [Rx.strR "chmod", Rx.ws1, Rx.clsOf ['4', '7'], Rx.strR "77", Rx.Reg.wordB],
      "chmod\\s+[47]77\\b", "world-writable permission (chmod 777)"⟩,
    ⟨Rx.seq [Rx.strR "chmod", Rx.ws1, Rx.strR "-R", Rx.ws1],
      "chmod\\s+-R\\s+", "recursive permission change"⟩,
    ⟨Rx.seq [Rx.strR "chown", Rx.ws1, Rx.strR "-R", Rx.ws1],
      "chown\\s+-R\\s+", "recursive ownership change"⟩,
    ⟨Rx.seq [Rx.strR "kill", Rx.ws1, Rx.strR "-9", Rx.ws1],
      "kill\\s+-9\\s+", "force kill process (SIGKILL)"⟩,
    ⟨Rx.seq [Rx.Reg.wordB, Rx.strR "killall", Rx.ws1],
      "\\bkillall\\s+", "killall processes"⟩,
    ⟨Rx.seq [Rx.Reg.wordB, Rx.strR "pkill", Rx.ws1],
      "\\bpkill\\s+", "pkill processes"⟩,
    ⟨Rx.seq [Rx.strR "systemctl", Rx.ws1, Rx.Reg.alt (Rx.strR "stop") (Rx.strR "disable"), Rx.ws1],
      "systemctl\\s+(?:stop|disable)\\s+", "systemctl stop/disable service"⟩,
    ⟨Rx.seq [Rx.istrR "DROP", Rx.ws1, Rx.Reg.alt (Rx.istrR "DATABASE") (Rx.istrR "TABLE"), Rx.Reg.wordB],
      "DROP\\s+(?:DATABASE|TABLE)\\b", "DROP DATABASE/TABLE"⟩,
    ⟨Rx.Reg.cat (Rx.istrR "TRUNCATE") Rx.ws1,
      "TRUNCATE\\s+", "TRUNCATE table"⟩,
    ⟨Rx.seq [Rx.Reg.wordB, Rx.strR "eval", Rx.ws1],
      "\\beval\\s+", "eval execution (arbitrary code)"⟩,
    ⟨Rx.seq [Rx.Reg.wordB, Rx.strR "iptables", Rx.ws1],
      "\\biptables\\s+", "firewall rule change (iptables)"⟩,
    ⟨Rx.seq [Rx.Reg.wordB, Rx.strR "ufw", Rx.ws1,
        Rx.alts [Rx.strR "allow", Rx.strR "deny", Rx.strR "delete", Rx.strR "disable"], Rx.Reg.wordB],
      "\\bufw\\s+(?:allow|deny|delete|disable)\\b", "firewall rule change (ufw)"⟩,
    ⟨Rx.seq [Rx.Reg.wordB, Rx.strR "crontab", Rx.ws1,
        Rx.Reg.alt (Rx.strR "-r") (Rx.strR "-e"), Rx.Reg.wordB],
      "\\bcrontab\\s+(-r|-e)\\b", "crontab modification"⟩,
    ⟨Rx.seq [Rx.Reg.wordB, Rx.strR "fdisk", Rx.ws1],
      "\\bfdisk\\s+", "disk partition operation"⟩,
    ⟨Rx.seq [Rx.Reg.wordB, Rx.strR "parted", Rx.ws1],
      "\\bparted\\s+", "disk partition operation"⟩,
    ⟨Rx.seq [Rx.Reg.wordB, Rx.strR "mount", Rx.ws1],
      "\\bmount\\s+", "filesystem mount operation"⟩,
    ⟨Rx.seq [Rx.Reg.wordB, Rx.strR "umount", Rx.ws1],
      "\\bumount\\s+", "filesystem unmount operation"⟩,
    ⟨Rx.Reg.cat (Rx.strR "ssh-keygen") Rx.ws1,
      "ssh-keygen\\s+", "SSH key generation/modification"⟩,
    ⟨Rx.seq [Rx.strR "export", Rx.ws1,
        Rx.alts [Rx.strR "PATH", Rx.strR "LD_PRELOAD", Rx.strR "LD_LIBRARY_PATH"], Rx.chr '='],
      "export\\s+(?:PATH|LD_PRELOAD|LD_LIBRARY_PATH)=", "security-sensitive environment variable change"⟩ ]

/-- Embeds `SAFE_EXEC` whitelist from blacklist.ts, in declaration order. -/
def SAFE_EXEC : List Rx.Reg :=
  [ Rx.seq [Rx.Reg.bos, Rx.strR "git", Rx.ws1, Rx.strR "rm", Rx.ws1, Rx.dotStar, Rx.strR "--cached"],
    Rx.seq [Rx.Reg.bos, Rx.strR "git", Rx.ws1,
      Rx.alts [Rx.strR "add", Rx.strR "commit", Rx.strR "push", Rx.strR "pull", Rx.strR "fetch",
        Rx.strR "log", Rx.strR "status", Rx.strR "diff", Rx.strR "branch", Rx.strR "checkout",
        Rx.strR "merge", Rx.strR "rebase", Rx.strR "stash", Rx.strR "tag", Rx.strR "remote",
        Rx.strR "clone"], Rx.Reg.wordB],
    Rx.seq [Rx.Reg.bos, Rx.Reg.alt (Rx.strR "echo") (Rx.strR "printf"), Rx.ws1],
    Rx.seq [Rx.Reg.bos,
      Rx.alts [Rx.strR "cat", Rx.strR "head", Rx.strR "tail", Rx.strR "less", Rx.strR "more",
        Rx.strR "grep", Rx.strR "ls", Rx.strR "stat", Rx.strR "file", Rx.strR "wc", Rx.strR "du",
        Rx.strR "df", Rx.strR "which", Rx.strR "whereis", Rx.strR "type", Rx.strR "id",
        Rx.strR "whoami", Rx.strR "hostname", Rx.strR "uname", Rx.strR "date", Rx.strR "uptime"],
      Rx.ws0],
    Rx.seq [Rx.Reg.bos, Rx.alts [Rx.strR "apt", Rx.strR "dpkg", Rx.strR "pip", Rx.strR "npm"],
      Rx.ws1, Rx.alts [Rx.strR "list", Rx.strR "show", Rx.strR "info", Rx.strR "search"],
      Rx.Reg.wordB],
    Rx.seq [Rx.Reg.bos, Rx.Reg.alt (Rx.strR "mkdir") (Rx.strR "touch"), Rx.ws1],
    Rx.seq [Rx.Reg.bos,
      Rx.alts [Rx.strR "tar", Rx.strR "unzip", Rx.strR "gzip", Rx.strR "gunzip", Rx.strR "bzip2",
        Rx.strR "xz", Rx.strR "7z"], Rx.ws1],
    Rx.seq [Rx.Reg.bos, Rx.strR "openclaw", Rx.ws1] ]

end Blacklist

namespace Blacklist

/-- Count occurrences of a character in a list (used for quote counting,
mirroring `(before.match(/"/g) || []).length`). -/
def countChar (c : Char) (l : List Char) : Nat :=
  (l.filter (fun x => x = c)).length

/-- Embeds `isQuotedOrCommented(text, matchIndex)` from blacklist.ts: counts ALL
double/single quote characters in `text.slice(0, matchIndex)` (escaped or
not), and looks for a `#` on the current line before the match. -/
def isQuotedOrCommented (text : String) (matchIndex : Nat) : Bool :=
  let before := text.data.take matchIndex
  if countChar '"' before % 2 = 1 then true
  else if countChar '\'' before % 2 = 1 then true
  else
    let currentLine := (before.reverse.takeWhile (fun c => c != '\n')).reverse
    currentLine.contains '#'

/-- Embeds `matchRules(text, rules, level)` from blacklist.ts: first rule whose
leftmost match is not quote/comment suppressed wins; a suppressed leftmost
match sends the loop on to the next rule. -/
def matchRules (text : String) (rules : List Rule) (level : Level) : Option BlacklistMatch :=
  match rules with
  | [] => none
  | r :: rest =>
    match Rx.execIdx r.pattern text with
    | some i =>
      if isQuotedOrCommented text i then matchRules text rest level
      else some ⟨level, r.src, r.reason⟩
    | none => matchRules text rest level

/-- Embeds `matchRulesRaw` from blacklist.ts: like `matchRules` but without
quote/comment suppression (used for interpreter payloads). -/
def matchRulesRaw (text : String) (rules : List Rule) (level : Level) : Option BlacklistMatch :=
  match rules with
  | [] => none
  | r :: rest =>
    match Rx.execIdx r.pattern text with
    | some _ => some ⟨level, r.src, r.reason⟩
    | none => matchRulesRaw text rest level

/-- JavaScript `String.prototype.trim` over the ASCII whitespace range. -/
def jsTrim (l : List Char) : String :=
  String.mk ((l.dropWhile Rx.wsChar).reverse.dropWhile Rx.wsChar).reverse

/-- The loop body of `splitCommand` from blacklist.ts: split on `;`, `|`,
newline, `&&`, `||` outside quotes; quote state toggles per quote char.
Segments are pushed trimmed (empty pushes are filtered by the caller,
matching `segments.filter(Boolean)`). -/
def splitLoop : List Char → Bool → Bool → List Char → List String → List String
  | [], _, _, cur, acc =>
    if jsTrim cur ≠ "" then acc ++ [jsTrim cur] else acc
  | '&' :: '&' :: cs, inSingle, inDouble, cur, acc =>
    if !inSingle && !inDouble then
      splitLoop cs inSingle inDouble [] (acc ++ [jsTrim cur])
    else splitLoop ('&' :: cs) inSingle inDouble (cur ++ ['&']) acc
  | '|' :: '|' :: cs, inSingle, inDouble, cur, acc =>
    if !inSingle && !inDouble then
      splitLoop cs inSingle inDouble [] (acc ++ [jsTrim cur])
    else splitLoop ('|' :: cs) inSingle inDouble (cur ++ ['|']) acc
  | c :: cs, inSingle, inDouble, cur, acc =>
    if c = '\'' && !inDouble then splitLoop cs (!inSingle) inDouble (cur ++ [c]) acc
    else if c = '"' && !inSingle then splitLoop cs inSingle (!inDouble) (cur ++ [c]) acc
    else if !inSingle && !inDouble && (c = ';' || c = '|' || c = '\n') then
      splitLoop cs inSingle inDouble [] (acc ++ [jsTrim cur])
    else splitLoop cs inSingle inDouble (cur ++ [c]) acc

/-- Embeds `splitCommand` from blacklist.ts. -/
def splitCommand (cmd : String) : List String :=
  (splitLoop cmd.data false false [] []).filter (fun s => s ≠ "")

/-- Strip a literal string from the front of a char list. -/
def stripLit (p : String) (l : List Char) : Option (List Char) :=
  if l.take p.length = p.data then some (l.drop p.length) else none

/-- Body of a double-quoted group `"((?:[^"\x5c]|\x5c.)*)"`: the scan is
deterministic (at `\x5c` only `\x5c.` can consume, at `"` the group must
close); returns the captured chars, or `none` when no closing quote is
reachable. -/
def dqBody : List Char → Option (List Char)
  | [] => none
  | c :: rest =>
    if c = '"' then some []
    else if c = '\\' then
      match rest with
      | [] => none
      | d :: rest2 =>
        if Rx.dotChar d then (dqBody rest2).map (fun cap => c :: d :: cap) else none
    else (dqBody rest).map (fun cap => c :: cap)

/-- Body of a single-quoted group `'([^']*)'`. -/
def sqBody : List Char → Option (List Char)
  | [] => none
  | c :: rest =>
    if c = '\'' then some [] else (sqBody rest).map (fun cap => c :: cap)

/-- Embeds `\S+` fallback of the wrapper payload group. -/
def nonWsRun (l : List Char) : Option String :=
  let t := l.takeWhile (fun c => !Rx.wsChar c)
  if t = [] then none else some (String.mk t)

/-- The payload group `(?:"((?:[^"\x5c]|\x5c.)*)"|'([^']*)'|(\S+))` of the
shell-wrapper regex; when a quoted branch cannot close, the regex falls back
to `\S+` (which then starts at the quote character). -/
def wrapperPayloadGroup (l : List Char) : Option String :=
  match l with
  | '"' :: rest =>
    (match dqBody rest with
     | some cap => some (String.mk cap)
     | none => nonWsRun l)
  | '\'' :: rest =>
    (match sqBody rest with
     | some cap => some (String.mk cap)
     | none => nonWsRun l)
  | _ => nonWsRun l

/-- After the shell name: `\s+(?:-[a-zA-Z]*c|-c)\s+` then the payload group.
A backtracking match of the flag alternation must consume the whole letter
run after `-` (whatever is left would have to match `\s`), so the flag
matches exactly when that run is nonempty, ends in `c`, and is followed by
whitespace. -/
def wrapperAfterShell (rest : List Char) : Option String :=
  let r1 := rest.dropWhile Rx.wsChar
  if r1.length = rest.length then none
  else
    match r1 with
    | '-' :: r2 =>
      let letters := r2.takeWhile Rx.asciiLetter
      if letters = [] then none
      else if letters.getLast? ≠ some 'c' then none
      else
        let r3 := r2.drop letters.length
        let r4 := r3.dropWhile Rx.wsChar
        if r4.length = r3.length then none
        else wrapperPayloadGroup r4
    | _ => none

/-- Embeds `extractShellWrapperPayload` from blacklist.ts, a direct transcription of
`/^\s*(?:\x2f(?:usr\x2f)?bin\x2f)?(?:bash|sh|zsh|dash)\s+(?:-[a-zA-Z]*c|-c)\s+(?:"((?:[^"\x5c]|\x5c.)*)"|'([^']*)'|(\S+))/`
as a parser (no two shell names can prefix the same input, and the optional
`/bin` prefix cannot be a shell name, so the parse is deterministic). -/
def extractShellWrapperPayload (command : String) : Option String :=
  let l0 := command.data.dropWhile Rx.wsChar
  let l1 :=
    match stripLit "/usr/bin/" l0 with
    | some r => r
    | none =>
      match stripLit "/bin/" l0 with
      | some r => r
      | none => l0
  match stripLit "bash" l1 with
  | some rest => wrapperAfterShell rest
  | none =>
    match stripLit "sh" l1 with
    | some rest => wrapperAfterShell rest
    | none =>
      match stripLit "zsh" l1 with
      | some rest => wrapperAfterShell rest
      | none =>
        match stripLit "dash" l1 with
        | some rest => wrapperAfterShell rest
        | none => none

/-- Embeds `extractInterpreterPayload` from blacklist.ts, a direct transcription of
`/^\s*(?:python[23]?|node|perl|ruby)\s+(?:-[a-zA-Z]*[ce]|-[ce])\s+(?:"((?:[^"\x5c]|\x5c.)*)"|'([^']*)')/`
as a parser (no `\S+` fallback here: an unclosed quote yields `none`). -/
def extractInterpreterPayload (command : String) : Option String :=
  let l0 := command.data.dropWhile Rx.wsChar
  let afterName : Option (List Char) :=
    match stripLit "python" l0 with
    | some r =>
      (match r with
       | c :: r2 => if c = '2' || c = '3' then some r2 else some r
       | [] => some r)
    | none =>
      match stripLit "node" l0 with
      | some r => some r
      | none =>
        match stripLit "perl" l0 with
        | some r => some r
        | none => stripLit "ruby" l0
  match afterName with
  | none => none
  | some rest =>
    let r1 := rest.dropWhile Rx.wsChar
    if r1.length = rest.length then none
    else
      match r1 with
      | '-' :: r2 =>
        let letters := r2.takeWhile Rx.asciiLetter
        if letters = [] then none
        else if !(letters.getLast? = some 'c' || letters.getLast? = some 'e') then none
        else
          let r3 := r2.drop letters.length
          let r4 := r3.dropWhile Rx.wsChar
          if r4.length = r3.length then none
          else
            match r4 with
            | '"' :: rest2 => (dqBody rest2).map String.mk
            | '\'' :: rest2 => (sqBody rest2).map String.mk
            | _ => none
      | _ => none

/-- Embeds `(?:bash|sh|zsh|dash)`. -/
def shellAlt : Rx.Reg :=
  Rx.alts [Rx.strR "bash", Rx.strR "sh", Rx.strR "zsh", Rx.strR "dash"]

/-- CRITICAL_EXEC... wait placeholder

PIPE_ATTACKS rule 4: `/\becho\b.*\|\s*(?:bash|sh|zsh|dash)\b/`. -/
def echoPipeRule : Rule :=
  ⟨Rx.seq [Rx.Reg.wordB, Rx.strR "echo", Rx.Reg.wordB, Rx.dotStar, Rx.chr '|', Rx.ws0,
      shellAlt, Rx.Reg.wordB],
    "\\becho\\b.*\\|\\s*(?:bash|sh|zsh|dash)\\b",
    "echo pipe to shell"⟩

/-- The `PIPE_ATTACKS` rule table local to `checkExecBlacklist` (phase 1):
spanning pipe-based attack shapes checked on the FULL command string before
splitting. -/
def pipeAttacks : List Rule :=
  [ ⟨Rx.seq [Rx.strR "base64", Rx.ws1, Rx.Reg.alt (Rx.strR "-d") (Rx.strR "--decode"),
        Rx.dotStar, Rx.chr '|', Rx.ws0, shellAlt],
      "base64\\s+(-d|--decode).*\\|\\s*(?:bash|sh|zsh|dash)", "base64 decoded pipe to shell"⟩,
    ⟨Rx.seq [Rx.Reg.wordB, Rx.strR "curl", Rx.Reg.wordB, Rx.dotStar, Rx.chr '|', Rx.ws0,
        Rx.alts [Rx.strR "bash", Rx.strR "sh", Rx.strR "zsh", Rx.strR "dash",
          Rx.strR "python", Rx.strR "perl", Rx.strR "ruby"]],
      "\\bcurl\\b.*\\|\\s*(?:bash|sh|zsh|dash|python|perl|ruby)",
      "curl pipe to shell (remote code execution)"⟩,
    ⟨Rx.seq [Rx.Reg.wordB, Rx.strR "wget", Rx.Reg.wordB, Rx.dotStar, Rx.chr '|', Rx.ws0,
        Rx.alts [Rx.strR "bash", Rx.strR "sh", Rx.strR "zsh", Rx.strR "dash",
          Rx.strR "python", Rx.strR "perl", Rx.strR "ruby"]],
      "\\bwget\\b.*\\|\\s*(?:bash|sh|zsh|dash|python|perl|ruby)",
      "wget pipe to shell (remote code execution)"⟩,
    echoPipeRule,
    ⟨Rx.seq [Rx.Reg.wordB, Rx.strR "printf", Rx.Reg.wordB, Rx.dotStar, Rx.chr '|', Rx.ws0,
        shellAlt, Rx.Reg.wordB],
      "\\bprintf\\b.*\\|\\s*(?:bash|sh|zsh|dash)\\b", "printf pipe to shell"⟩,
    ⟨Rx.seq [Rx.chr '|', Rx.ws0, shellAlt, Rx.ws0, Rx.Reg.eos],
      "\\|\\s*(?:bash|sh|zsh|dash)\\s*$", "pipe to shell interpreter"⟩,
    ⟨Rx.seq [Rx.chr '|', Rx.ws0, shellAlt, Rx.ws0, Rx.clsOf [';', '&', '|']],
      "\\|\\s*(?:bash|sh|zsh|dash)\\s*[;&|]", "pipe to shell interpreter"⟩ ]

/-- Phase-2 wrapper annotation:
`reason + " (via shell wrapper: " + seg.slice(0, 40) + "...")`. -/
def annotateWrapper (m : BlacklistMatch) (seg : String) : BlacklistMatch :=
  { m with reason := m.reason ++ " (via shell wrapper: " ++ String.mk (seg.data.take 40) ++ "...)" }

/-- Phase-2 interpreter annotation. -/
def annotateInterp (m : BlacklistMatch) : BlacklistMatch :=
  { m with reason := m.reason ++ " (via interpreter inline code)" }

/-- Interpreter-payload check for one segment (phase 2, second half):
`matchRulesRaw(payload, CRITICAL_EXEC) ?? matchRulesRaw(payload, WARNING_EXEC)`. -/
def interpSegMatch (seg : String) : Option BlacklistMatch :=
  match extractInterpreterPayload seg with
  | none => none
  | some payload =>
    match matchRulesRaw payload CRITICAL_EXEC .critical with
    | some m => some (annotateInterp m)
    | none =>
      match matchRulesRaw payload WARNING_EXEC .warning with
      | some m => some (annotateInterp m)
      | none => none

/-- Phase 2 of `checkExecBlacklist`: per segment, unwrap shell wrappers
(recursively re-checking the payload through `check`) and interpreter inline
code. A payload that produces no inner match lets the loop continue, which is
also what the source's falsy test does for an empty payload. -/
def phase2With (check : String → Option BlacklistMatch) :
    List String → Option BlacklistMatch
  | [] => none
  | seg :: rest =>
    match
      (match extractShellWrapperPayload seg with
       | some payload =>
         (match check payload with
          | some m => some (annotateWrapper m seg)
          | none => none)
       | none => none) with
    | some m => some m
    | none =>
      match interpSegMatch seg with
      | some m => some m
      | none => phase2With check rest

/-- Whitelist test: `SAFE_EXEC.some(re => re.test(seg))`. -/
def isSafeSeg (seg : String) : Bool :=
  SAFE_EXEC.any (fun re => Rx.regTest re seg)

/-- Phase 3 of `checkExecBlacklist`: per segment, skip whitelisted segments,
otherwise `matchRules(seg, CRITICAL_EXEC) ?? matchRules(seg, WARNING_EXEC)`. -/
def phase3 : List String → Option BlacklistMatch
  | [] => none
  | seg :: rest =>
    if isSafeSeg seg then phase3 rest
    else
      match matchRules seg CRITICAL_EXEC .critical with
      | some m => some m
      | none =>
        match matchRules seg WARNING_EXEC .warning with
        | some m => some m
        | none => phase3 rest

/-- Embeds `checkExecBlacklist` from blacklist.ts, with the wrapper recursion made
structural through a fuel parameter (each unwrapped payload is strictly
shorter than the command, so the fuel `command.length + 1` used by
`checkExecBlacklist` below is never exhausted). -/
def checkExecBlacklistFuel : Nat → String → Option BlacklistMatch
  | 0, _ => none
  | fuel + 1, command =>
    if command = "" then none
    else
      match matchRules command pipeAttacks .critical with
      | some m => some m
      | none =>
        let segments := splitCommand command
        match phase2With (checkExecBlacklistFuel fuel) segments with
        | some m => some m
        | none => phase3 segments

/-- Embeds `checkExecBlacklist(command)` from blacklist.ts. -/
def checkExecBlacklist (command : String) : Option BlacklistMatch :=
  checkExecBlacklistFuel (command.length + 1) command

end Blacklist

/-- A JavaScript parameter value, as the guardian distinguishes them:
a string value, a non-string non-nullish value represented by its JSON
serialization, or `null`/`undefined`. -/
inductive JsVal where
  | str (s : String)
  | json (s : String)
  | nullish
deriving DecidableEq, Repr

namespace Blacklist

/-- Embeds `ToolRule` from blacklist.ts. -/
structure ToolRule where
  tool : Rx.Reg
  param : String
  pattern : Rx.Reg
  src : String
  level : Level
  reason : String

/-- Embeds `TOOL_RULES` from blacklist.ts, in declaration order. -/
def TOOL_RULES : List ToolRule :=
  [ ⟨Rx.dotStar, "*",
      Rx.seq [Rx.Reg.wordB,
        Rx.alts [Rx.istrR "batchDelete", Rx.istrR "expunge", Rx.istrR "emptyTrash",
          Rx.istrR "purge"], Rx.Reg.wordB],
      "\\b(?:batchDelete|expunge|emptyTrash|purge)\\b", .critical,
      "bulk email deletion (irreversible)"⟩,
    ⟨Rx.dotStar, "*",
      Rx.seq [Rx.Reg.wordB, Rx.Reg.alt (Rx.istrR "delete") (Rx.istrR "trash"), Rx.Reg.wordB],
      "\\b(?:delete|trash)\\b", .warning, "email/message deletion"⟩,
    ⟨Rx.dotStar, "*",
      Rx.seq [Rx.Reg.wordB,
        Rx.alts [Rx.seq [Rx.istrR "DROP", Rx.ws1,
            Rx.Reg.alt (Rx.istrR "DATABASE") (Rx.istrR "TABLE")],
          Rx.Reg.cat (Rx.istrR "TRUNCATE") Rx.ws1,
          Rx.seq [Rx.istrR "DELETE", Rx.ws1, Rx.istrR "FROM"]], Rx.Reg.wordB],
      "\\b(?:DROP\\s+(?:DATABASE|TABLE)|TRUNCATE\\s+|DELETE\\s+FROM)\\b", .critical,
      "destructive database query in tool params"⟩ ]

/-- The rule loop of `checkToolBlacklist`. -/
def toolLoop (toolName actionValue : String) : List ToolRule → Option BlacklistMatch
  | [] => none
  | r :: rest =>
    if !(Rx.regTest r.tool toolName) then toolLoop toolName actionValue rest
    else
      match Rx.execIdx r.pattern actionValue with
      | some _ => some ⟨r.level, r.src, r.reason⟩
      | none => toolLoop toolName actionValue rest

/-- Embeds `checkToolBlacklist(toolName, params)` from blacklist.ts: skips
`exec`/`write`/`edit` (dedicated checkers) and empty param maps, then tests
`TOOL_RULES` against the joined lowercased action-like fields. -/
def checkToolBlacklist (toolName : String) (params : List (String × JsVal)) :
    Option BlacklistMatch :=
  if toolName = "exec" || toolName = "write" || toolName = "edit" then none
  else if params.isEmpty then none
  else
    let actionFields := ["action", "method", "command", "operation"]
    let actionValue :=
      (String.intercalate " "
        ((actionFields.map (fun f =>
          match params.lookup f with
          | some (JsVal.str s) => s
          | _ => "")).filter (fun s => s ≠ ""))).toLower
    toolLoop toolName actionValue TOOL_RULES

end Blacklist

namespace RiskAssessor

/-- Review tiers (`"fast" | "light" | "full"`). -/
inductive Tier where
  | fast
  | light
  | full
deriving DecidableEq, Repr

/-- Embeds `Policy` from risk-assessor.ts (`keywords?` is optional). JSON weights
are modelled as integers. -/
structure Policy where
  tool : String
  baseScore : Int
  keywords : Option (List (String × Int))
deriving DecidableEq, Repr

/-- Embeds `thresholds` of `Policies`. -/
structure Thresholds where
  low : Int
  high : Int
deriving DecidableEq, Repr

/-- One voting configuration entry (`{ guardians, threshold }`). -/
structure VoteCfg where
  guardians : Nat
  threshold : Nat
deriving DecidableEq, Repr

/-- Embeds `voting` of `Policies`. -/
structure VotingCfg where
  lightReview : VoteCfg
  fullVote : VoteCfg
deriving DecidableEq, Repr

/-- Embeds `trustBudget` of `Policies`. -/
structure TrustBudgetCfg where
  enabled : Bool
  autoDowngradeAfter : Nat
deriving DecidableEq, Repr

/-- Embeds `Policies` from risk-assessor.ts. -/
structure Policies where
  enabled : Bool
  thresholds : Thresholds
  guardianModel : String
  policies : List Policy
  voting : VotingCfg
  trustBudget : TrustBudgetCfg
deriving DecidableEq, Repr

/-- Embeds `RiskResult` from risk-assessor.ts. -/
structure RiskResult where
  score : Int
  tier : Tier
  matchedKeywords : List String
  toolPolicy : Option Policy
deriving DecidableEq, Repr

/-- Embeds `flattenParams` from risk-assessor.ts: string values as-is, non-nullish
non-strings by their JSON serialization, nullish values skipped; joined by
a space. -/
def flattenParams (params : List (String × JsVal)) : String :=
  String.intercalate " "
    (params.filterMap (fun kv =>
      match kv.2 with
      | .str s => some s
      | .json s => some s
      | .nullish => none))

/-- Embeds `haystack.indexOf(needle)`. -/
def firstIdxOfSub (hay needle : List Char) : Option Nat :=
  (List.range (hay.length + 1)).find? (fun i => (hay.drop i).take needle.length == needle)

/-- Embeds `haystack.includes(needle)`. -/
def containsSub (hay needle : String) : Bool :=
  (firstIdxOfSub hay.data needle.data).isSome

/-- Embeds `haystack.lastIndexOf('\n', idx)`: the greatest `j ≤ idx` holding `'\n'`. -/
def lastNewlineAtOrBefore (l : List Char) (idx : Nat) : Option Nat :=
  ((List.range (idx + 1)).filter (fun j => l.get? j = some '\n')).getLast?

/-- Embeds `/grep\s+["']?[^"']*$/`. -/
def grepCtx : Rx.Reg :=
  Rx.seq [Rx.strR "grep", Rx.ws1, Rx.opt (Rx.clsOf ['"', '\'']),
    Rx.Reg.star (fun c => !(c = '"' || c = '\'')), Rx.Reg.eos]

/-- Embeds `/echo\s+["']?[^"']*$/`. -/
def echoCtx : Rx.Reg :=
  Rx.seq [Rx.strR "echo", Rx.ws1, Rx.opt (Rx.clsOf ['"', '\'']),
    Rx.Reg.star (fun c => !(c = '"' || c = '\'')), Rx.Reg.eos]

/-- Embeds `/sed\s+["']?[^"']*$/`. -/
def sedCtx : Rx.Reg :=
  Rx.seq [Rx.strR "sed", Rx.ws1, Rx.opt (Rx.clsOf ['"', '\'']),
    Rx.Reg.star (fun c => !(c = '"' || c = '\'')), Rx.Reg.eos]

/-- Embeds `/^\s*#/`. -/
def hashBol : Rx.Reg := Rx.seq [Rx.Reg.bos, Rx.ws0, Rx.chr '#']

/-- Embeds `isQuotedOrCommented(haystack, keyword)` from risk-assessor.ts: find the
FIRST occurrence of the keyword, take the same-line text before it, and test
the grep/echo/sed/comment context regexes against it. -/
def isQuotedOrCommented (haystack keyword : String) : Bool :=
  match firstIdxOfSub haystack.data keyword.data with
  | none => false
  | some idx =>
    let lineStart :=
      match lastNewlineAtOrBefore haystack.data idx with
      | some j => j + 1
      | none => 0
    let before := String.mk ((haystack.data.drop lineStart).take (idx - lineStart))
    if Rx.regTest grepCtx before then true
    else if Rx.regTest echoCtx before then true
    else if Rx.regTest sedCtx before then true
    else if Rx.regTest hashBol before && before.data.contains '#' then true
    else false

def HIGH_RISK_PATHS : List String :=
  ["/", "/home", "/etc", "/root", "/var", "/usr", "/boot", "/sys"]

def LOW_RISK_PATHS : List String := ["/tmp", "/var/tmp", "/dev/null"]

/-- The regex `(?:^|\s|/)<path>(?:\s|/|$)` built for each high-risk path
(the `p.replace("/", "\x5c/")` escape does not change what it matches). -/
def highPathReg (p : String) : Rx.Reg :=
  Rx.seq [Rx.alts [Rx.Reg.bos, Rx.Reg.cls Rx.wsChar, Rx.chr '/'], Rx.strR p,
    Rx.alts [Rx.Reg.cls Rx.wsChar, Rx.chr '/', Rx.Reg.eos]]

/-- Embeds `pathRiskMultiplier` from risk-assessor.ts: 1.5 for high-risk paths,
0.5 for low-risk paths, 1.0 otherwise. -/
def pathRiskMultiplier (params : List (String × JsVal)) : ℚ :=
  let haystack := flattenParams params
  if HIGH_RISK_PATHS.any (fun p => Rx.regTest (highPathReg p) haystack) then 3 / 2
  else if LOW_RISK_PATHS.any (fun p => containsSub haystack p) then 1 / 2
  else 1

/-- JavaScript `Math.round`: half-way cases round toward positive infinity. -/
def jsRound (q : ℚ) : Int := ⌊q + 1 / 2⌋

/-- Embeds `Math.max(0, Math.min(100, score))`. -/
def clampScore (x : Int) : Int := max 0 (min 100 x)

/-- Embeds `assessRisk(toolName, params, policies)` from risk-assessor.ts.
The `delta * 0.3` dampening is modelled as the exact rational `3/10`
(the double `0.3` can differ from it only at far decimal places). -/
def assessRisk (toolName : String) (params : List (String × JsVal))
    (policies : Policies) : RiskResult :=
  let thresholds := policies.thresholds
  let toolPolicy : Option Policy :=
    match policies.policies.find? (fun p => p.tool == toolName) with
    | some p => some p
    | none => policies.policies.find? (fun p => p.tool == "*")
  let base : Int :=
    match toolPolicy with
    | some p => p.baseScore
    | none => 10
  let kwStep : Int × List String :=
    match toolPolicy with
    | some p =>
      match p.keywords with
      | some kws =>
        let haystack := (flattenParams params).toLower
        kws.foldl (fun acc kv =>
          if containsSub haystack kv.1.toLower then
            let effective : Int :=
              if isQuotedOrCommented haystack kv.1.toLower then jsRound ((kv.2 : ℚ) * (3 / 10))
              else kv.2
            (acc.1 + effective, acc.2 ++ [kv.1])
          else acc) ((0 : Int), ([] : List String))
      | none => (0, [])
    | none => (0, [])
  let score0 : Int := base + kwStep.1
  let score1 : Int := jsRound ((score0 : ℚ) * pathRiskMultiplier params)
  let score : Int := clampScore score1
  let tier : Tier :=
    if score ≤ thresholds.low then .fast
    else if score ≤ thresholds.high then .light
    else .full
  ⟨score, tier, kwStep.2, toolPolicy⟩

end RiskAssessor

namespace GuardianVoter

/-- Embeds `GuardianSpec` from guardian-voter.ts. -/
structure GuardianSpec where
  name : String
  promptFile : String
deriving DecidableEq, Repr

/-- Vote method (`"rule" | "llm"`). -/
inductive VoteMethod where
  | rule
  | llm
deriving DecidableEq, Repr

/-- Embeds `Vote` from guardian-voter.ts. Confidences are modelled as rationals. -/
structure Vote where
  guardian : String
  approve : Bool
  confidence : ℚ
  reason : String
  method : VoteMethod
deriving DecidableEq, Repr

/-- Embeds `VoteResult` from guardian-voter.ts. -/
structure VoteResult where
  approved : Bool
  votes : List Vote
  reason : String
  tier : RiskAssessor.Tier
deriving DecidableEq, Repr

/-- One entry of `SHARED_REJECT_PATTERNS` (regex plus its source text). -/
structure RejectPattern where
  pattern : Rx.Reg
  src : String

/-- Embeds `SHARED_REJECT_PATTERNS` from guardian-voter.ts, in declaration order
(all case-insensitive; patterns built there by string concatenation are
embedded as the regex they evaluate to). -/
def SHARED_REJECT_PATTERNS : List RejectPattern :=
  [ ⟨Rx.seq [Rx.istrR "rm", Rx.ws1,
        Rx.Reg.alt (Rx.seq [Rx.istrR "-r", Rx.opt (Rx.ichr 'f')]) (Rx.istrR "--recursive"),
        Rx.ws1, Rx.clsOf ['/', '~']],
      "rm\\s+(-rf?|--recursive)\\s+[\\/~]"⟩,
    ⟨Rx.Reg.cat (Rx.istrR "mkfs") Rx.Reg.wordB, "mkfs\\b"⟩,
    ⟨Rx.seq [Rx.istrR "dd", Rx.ws1, Rx.istrR "if="], "dd\\s+if="⟩,
    ⟨Rx.seq [Rx.chr '>', Rx.ws0, Rx.istrR "/dev/sd"], ">\\s*\\/dev\\/sd"⟩,
    ⟨Rx.alts [Rx.istrR "shutdown", Rx.istrR "reboot",
        Rx.seq [Rx.istrR "init", Rx.ws1, Rx.clsOf ['0', '6']]],
      "shutdown|reboot|init\\s+[06]"⟩,
    ⟨Rx.seq [Rx.istrR "kill", Rx.ws1, Rx.istrR "-9", Rx.ws1, Rx.chr '1', Rx.Reg.wordB],
      "kill\\s+-9\\s+1\\b"⟩,
    ⟨Rx.seq [Rx.istrR "systemctl", Rx.ws1, Rx.Reg.alt (Rx.istrR "stop") (Rx.istrR "disable"),
        Rx.ws1, Rx.alts [Rx.istrR "sshd", Rx.istrR "network", Rx.istrR "docker"]],
      "systemctl\\s+(stop|disable)\\s+(sshd|network|docker)"⟩,
    ⟨Rx.seq [Rx.istrR "cat", Rx.ws1, Rx.dotStar, Rx.chr '.',
        Rx.alts [Rx.istrR "env", Rx.istrR "pem", Rx.istrR "key"], Rx.Reg.wordB],
      "cat\\s+.*\\.(env|pem|key)\\b"⟩,
    ⟨Rx.Reg.alt (Rx.istrR "id_rsa") (Rx.istrR "id_ed25519"), "id_rsa|id_ed25519"⟩,
    ⟨Rx.istrR "/etc/shadow", "\\/etc\\/shadow"⟩,
    ⟨Rx.alts [Rx.istrR "AWS_SECRET", Rx.istrR "PRIVATE_KEY",
        Rx.seq [Rx.istrR "api", Rx.opt (Rx.clsOf ['_', '-']), Rx.istrR "key"],
        Rx.seq [Rx.istrR "password", Rx.ws0, Rx.clsOf [':', '=']]],
      "AWS_SECRET|PRIVATE_KEY|api[_-]?key|password\\s*[:=]"⟩,
    ⟨Rx.seq [Rx.chr '.', Rx.istrR "ssh", Rx.chr '/', Rx.dotStar, Rx.istrR "config"],
      "\\.ssh\\/.*config"⟩,
    ⟨Rx.Reg.cat (Rx.istrR "sudo") Rx.ws1, "sudo\\s+"⟩,
    ⟨Rx.seq [Rx.istrR "chmod", Rx.ws1, Rx.clsOf ['4', '7'], Rx.strR "77"], "chmod\\s+[47]77"⟩,
    ⟨Rx.seq [Rx.istrR "chown", Rx.ws1, Rx.istrR "root"], "chown\\s+root"⟩,
    ⟨Rx.alts [Rx.istrR "usermod", Rx.istrR "useradd", Rx.istrR "userdel"],
      "usermod|useradd|userdel"⟩,
    ⟨Rx.istrR "visudo", "visudo"⟩,
    ⟨Rx.istrR "/etc/sudoers", "/etc/sudoers"⟩,
    ⟨Rx.seq [Rx.istrR "rm", Rx.ws1,
        Rx.Reg.alt (Rx.seq [Rx.istrR "-r", Rx.opt (Rx.ichr 'f')]) (Rx.istrR "--recursive")],
      "rm\\s+(-rf?|--recursive)"⟩,
    ⟨Rx.seq [Rx.istrR "DROP", Rx.ws1, Rx.Reg.alt (Rx.istrR "TABLE") (Rx.istrR "DATABASE")],
      "DROP\\s+(TABLE|DATABASE)"⟩,
    ⟨Rx.Reg.cat (Rx.istrR "TRUNCATE") Rx.ws1, "TRUNCATE\\s+"⟩,
    ⟨Rx.seq [Rx.chr '>', Rx.ws1, Rx.chr '/',
        Rx.alts [Rx.istrR "etc", Rx.istrR "root", Rx.istrR "home"], Rx.chr '/'],
      ">\\s+\\/(etc|root|home)\\/"⟩,
    ⟨Rx.seq [Rx.istrR "format", Rx.ws1,
        Rx.alts [Rx.istrR "c:", Rx.istrR "d:", Rx.istrR "e:", Rx.istrR "/dev/"]],
      "format\\s+(c:|d:|e:|/dev/)"⟩,
    ⟨Rx.seq [Rx.istrR "find", Rx.ws1, Rx.dotStar, Rx.istrR "-delete"], "find\\s+.*-delete"⟩,
    ⟨Rx.seq [Rx.istrR "find", Rx.ws1, Rx.dotStar, Rx.istrR "-exec", Rx.ws1, Rx.istrR "rm"],
      "find\\s+.*-exec\\s+rm"⟩,
    ⟨Rx.seq [Rx.istrR "shutil", Rx.chr '.', Rx.istrR "rmtree"], "shutil\\.rmtree"⟩,
    ⟨Rx.Reg.alt (Rx.seq [Rx.istrR "os", Rx.chr '.', Rx.istrR "remove"])
        (Rx.seq [Rx.istrR "os", Rx.chr '.', Rx.istrR "unlink"]),
      "os\\.remove|os\\.unlink"⟩,
    ⟨Rx.seq [Rx.istrR "perl", Rx.ws1, Rx.dotStar, Rx.istrR "-e", Rx.ws1, Rx.dotStar,
        Rx.istrR "unlink"],
      "perl\\s+.*-e\\s+.*unlink"⟩,
    ⟨Rx.seq [Rx.istrR "unlink", Rx.ws1, Rx.istrR "--recursive"], "unlink\\s+--recursive"⟩ ]

/-- Embeds `GUARDIANS` from guardian-voter.ts. -/
def GUARDIANS : List GuardianSpec :=
  [ ⟨"safety", "safety.md"⟩,
    ⟨"privacy", "privacy.md"⟩,
    ⟨"permission", "permission.md"⟩,
    ⟨"reversibility", "reversibility.md"⟩ ]

/-- Embeds `s.slice(i, j)`. -/
def sliceStr (s : String) (i j : Nat) : String :=
  String.mk ((s.data.drop i).take (j - i))

/-- The haystack built by `ruleBasedVote`: tool name and parameter values
joined by spaces (`JSON.stringify(v ?? "")` gives `"\x22\x22"` for nullish). -/
def voteHaystack (toolName : String) (params : List (String × JsVal)) : String :=
  String.intercalate " "
    (toolName :: params.map (fun kv =>
      match kv.2 with
      | .str s => s
      | .json s => s
      | .nullish => "\"\""))

/-- The pattern loop of `ruleBasedVote`: a pattern that tests positive but
whose matched text `m[0]` sits in a quoted/commented context (per the risk
assessor's heuristic) is skipped; the first surviving match rejects. -/
def ruleLoop (guardian : GuardianSpec) (haystack : String) : List RejectPattern → Vote
  | [] => ⟨guardian.name, true, 7 / 10, "No dangerous patterns detected", .rule⟩
  | p :: rest =>
    match Rx.execFirst p.pattern haystack with
    | none => ruleLoop guardian haystack rest
    | some (i, j) =>
      if RiskAssessor.isQuotedOrCommented haystack (sliceStr haystack i j) then
        ruleLoop guardian haystack rest
      else ⟨guardian.name, false, 8 / 10, "Rule match: " ++ p.src, .rule⟩

/-- Embeds `ruleBasedVote(guardian, toolName, params)` from guardian-voter.ts: the
synchronous rule-based fallback verdict. -/
def ruleBasedVote (guardian : GuardianSpec) (toolName : String)
    (params : List (String × JsVal)) : Vote :=
  ruleLoop guardian (voteHaystack toolName params) SHARED_REJECT_PATTERNS

/-- Embeds `evaluateGuardian` from guardian-voter.ts: `llmVote` is modelled by an
oracle returning `some vote` on a successful external call and `none` on
timeout, transport failure, or a response without an extractable JSON object
(all of which `llmVote` collapses to `null`); any such failure falls back to
`ruleBasedVote`. -/
def evaluateGuardian (oracle : GuardianSpec → Option Vote) (guardian : GuardianSpec)
    (toolName : String) (params : List (String × JsVal)) : Vote :=
  (oracle guardian).getD (ruleBasedVote guardian toolName params)

/-- Embeds `runVoting(risk, toolName, params, policies)` from guardian-voter.ts
(the unused `runtime` parameter is dropped; the vote list is modelled in
guardian order, completion order being irrelevant to the aggregate; the
`rejectCount`/`rejectThreshold` locals of the source are computed but never
used there and are omitted). -/
def runVoting (oracle : GuardianSpec → Option Vote) (risk : RiskAssessor.RiskResult)
    (toolName : String) (params : List (String × JsVal))
    (policies : RiskAssessor.Policies) : VoteResult :=
  match risk.tier with
  | .fast =>
    ⟨true, [], "Fast lane: risk score " ++ toString risk.score ++ " below threshold", .fast⟩
  | .light =>
    let vote := evaluateGuardian oracle ⟨"comprehensive", "comprehensive.md"⟩ toolName params
    ⟨vote.approve, [vote], vote.reason, .light⟩
  | .full =>
    let selectedGuardians := GUARDIANS.take policies.voting.fullVote.guardians
    let votes := selectedGuardians.map (fun g => evaluateGuardian oracle g toolName params)
    let approveCount := (votes.filter (fun v => v.approve)).length
    let approved := decide (policies.voting.fullVote.threshold ≤ approveCount)
    let reasons := (votes.filter (fun v => !v.approve)).map
      (fun v => "[" ++ v.guardian ++ "] " ++ v.reason)
    ⟨approved, votes,
      if approved then "Approved " ++ toString approveCount ++ "/" ++ toString votes.length
      else "Rejected: " ++ String.intercalate "; " reasons,
      .full⟩

end GuardianVoter

namespace AuditLog

/-- One persisted audit record: the entry content (everything hashed except
the chain fields), its `prevHash`, and its stored `hash`. -/
structure Entry (α : Type) where
  content : α
  prevHash : String
  hash : String
deriving DecidableEq, Repr

/-- The result shape of `verifyAuditChain`. -/
structure VerifyResult where
  valid : Bool
  entries : Nat
  brokenAt : Option Nat
deriving DecidableEq, Repr

/-- Embeds `writeAuditEntry` from audit-log.ts, parameterised over the hash
function `H` (SHA-256 over the canonical serialization in the source):
`prevHash` is the running last hash and `hash = H(content, prevHash)`. -/
def writeAuditEntry {α : Type} (H : α → String → String) (lastHash : String) (c : α) :
    Entry α :=
  ⟨c, lastHash, H c lastHash⟩

/-- Appending a list of entry contents in order, threading the last-hash
cursor exactly as repeated `writeAuditEntry` calls do. -/
def appendEntries {α : Type} (H : α → String → String) (lastHash : String) :
    List α → List (Entry α)
  | [] => []
  | c :: cs =>
    let e := writeAuditEntry H lastHash c
    e :: appendEntries H e.hash cs

/-- The verification loop of `verifyAuditChain`: check `prevHash` against the
running cursor, recompute the hash, stop at the first failing index. -/
def verifyLoop {α : Type} (H : α → String → String) (n : Nat) :
    List (Entry α) → String → Nat → VerifyResult
  | [], _, _ => ⟨true, n, none⟩
  | e :: rest, prev, i =>
    if e.prevHash ≠ prev then ⟨false, n, some i⟩
    else if e.hash ≠ H e.content e.prevHash then ⟨false, n, some i⟩
    else verifyLoop H n rest e.hash (i + 1)

/-- Embeds `verifyAuditChain` from audit-log.ts over the persisted entry list
(`entries` is always the number of lines, even on failure). -/
def verifyAuditChain {α : Type} (H : α → String → String) (es : List (Entry α)) :
    VerifyResult :=
  verifyLoop H es.length es "" 0

/-- Alter the persisted content of the entry at index `k`, leaving its stored
`prevHash` and `hash` (and every other entry) unchanged. -/
def tamperContent {α : Type} : List (Entry α) → Nat → α → List (Entry α)
  | [], _, _ => []
  | e :: rest, 0, c => ⟨c, e.prevHash, e.hash⟩ :: rest
  | e :: rest, k + 1, c => e :: tamperContent rest k c

end AuditLog

namespace PluginIndex

/-- The built-in default policy object from the `loadPolicies` fallback in
the plugin entry point. -/
def defaultPolicies : RiskAssessor.Policies :=
  ⟨true, ⟨30, 70⟩, "claude-haiku-4-5", [], ⟨⟨1, 1⟩, ⟨3, 2⟩⟩, ⟨true, 10⟩⟩

/-- The trust-budget downgrade in the `before_tool_call` handler: when the
budget is enabled and `consecutiveApprovals >= autoDowngradeAfter`, the
scored tier is lowered one step (`full → light`, `light → fast`), otherwise
the risk result is untouched. -/
def applyTrustBudget (policies : RiskAssessor.Policies) (consecutiveApprovals : Nat)
    (risk : RiskAssessor.RiskResult) : RiskAssessor.RiskResult :=
  if policies.trustBudget.enabled
      && decide (policies.trustBudget.autoDowngradeAfter ≤ consecutiveApprovals) then
    match risk.tier with
    | .full => { risk with tier := .light }
    | .light => { risk with tier := .fast }
    | .fast => risk
  else risk

/-- The trust-counter update of the `before_tool_call` handler: a fast-lane
pass returns before the voting block and leaves the counter unchanged; a
reviewed Action increments it on approval and resets it to 0 on rejection. -/
def trustAfterAction (consecutiveApprovals : Nat) (effectiveTier : RiskAssessor.Tier)
    (approved : Bool) : Nat :=
  if effectiveTier = RiskAssessor.Tier.fast then consecutiveApprovals
  else if approved then consecutiveApprovals + 1
  else 0

end PluginIndex

/-- Modelled from the claim's wording for C3 (NOT from the source): count of
UNESCAPED occurrences of the quote character `q` — occurrences not
immediately preceded by a backslash — tracked with the previous character. -/
def countUnescapedAux (q : Char) : Option Char → List Char → Nat
  | _, [] => 0
  | prev, c :: rest =>
    (if c == q && !(prev == some '\\') then 1 else 0) + countUnescapedAux q (some c) rest

/-- Modelled from the claim's wording for C3: the number of unescaped quote
characters `q` in `l`. The source's `Blacklist.isQuotedOrCommented` counts
every quote character instead, escaped or not. -/
def countUnescaped (q : Char) (l : List Char) : Nat := countUnescapedAux q none l

/-- An external-check oracle for the default full vote: the permission
reviewer dissents, the other reviewers approve. -/
def c1Oracle (g : GuardianVoter.GuardianSpec) : Option GuardianVoter.Vote :=
  if g.name = "permission" then
    some ⟨"permission", false, 9 / 10, "user did not request this action", .llm⟩
  else some ⟨g.name, true, 9 / 10, "clearly intended by the user", .llm⟩

/-- A full-tier risk result (score 80 is above the default high threshold 70). -/
def c1Risk : RiskAssessor.RiskResult := ⟨80, .full, [], none⟩

/-- Parameters of the critical Action used against the voting engine. -/
def c1Params : List (String × JsVal) := [("command", JsVal.str "rm -rf /data")]

/-- A concrete injective-enough hash function standing in for SHA-256 in the
audit-chain witnesses. -/
def witnessHash (c p : String) : String := "#" ++ c ++ ":" ++ p

theorem appendEntries_length {α : Type} (H : α → String → String) :
    ∀ (cs : List α) (prev : String), (AuditLog.appendEntries H prev cs).length = cs.length := by
  intro cs
  induction cs with
  | nil => intro prev; rfl
  | cons c cs ih => intro prev; simp [AuditLog.appendEntries, ih]

theorem tamperContent_length {α : Type} :
    ∀ (es : List (AuditLog.Entry α)) (k : Nat) (c : α),
      (AuditLog.tamperContent es k c).length = es.length := by
  intro es
  induction es with
  | nil => intro k c; rfl
  | cons e rest ih =>
    intro k c
    cases k with
    | zero => rfl
    | succ k => simp [AuditLog.tamperContent, ih]

theorem verifyLoop_appendEntries {α : Type} (H : α → String → String) (n : Nat) :
    ∀ (cs : List α) (prev : String) (i : Nat),
      AuditLog.verifyLoop H n (AuditLog.appendEntries H prev cs) prev i = ⟨true, n, none⟩ := by
  intro cs
  induction cs with
  | nil => intro prev i; rfl
  | cons c cs ih =>
    intro prev i
    simp [AuditLog.appendEntries, AuditLog.writeAuditEntry, AuditLog.verifyLoop, ih]

theorem verifyLoop_tamper {α : Type} (H : α → String → String) (n : Nat) :
    ∀ (cs : List α) (k : Nat) (c : α) (prev : String) (i : Nat),
      k < cs.length →
      ((AuditLog.appendEntries H prev cs).get? k).all
        (fun e => !(H c e.prevHash == e.hash)) = true →
      AuditLog.verifyLoop H n
          (AuditLog.tamperContent (AuditLog.appendEntries H prev cs) k c) prev i
        = ⟨false, n, some (i + k)⟩ := by
  intro cs
  induction cs with
  | nil => intro k c prev i hk _; exact absurd hk (Nat.not_lt_zero k)
  | cons hd tl ih =>
    intro k c prev i hk hne
    cases k with
    | zero =>
      simp only [AuditLog.appendEntries, AuditLog.writeAuditEntry, List.get?,
        Option.all_some] at hne
      simp [AuditLog.appendEntries, AuditLog.writeAuditEntry, AuditLog.tamperContent,
        AuditLog.verifyLoop]
      intro habs
      rw [habs] at hne
      simp at hne
    | succ k =>
      have hk2 : k < tl.length := by
        simpa [List.length_cons] using Nat.lt_of_succ_lt_succ hk
      have hne2 : ((AuditLog.appendEntries H (H hd prev) tl).get? k).all
          (fun e => !(H c e.prevHash == e.hash)) = true := by
        simpa [AuditLog.appendEntries, AuditLog.writeAuditEntry, List.get?] using hne
      have := ih k c (H hd prev) (i + 1) hk2 hne2
      simp [AuditLog.appendEntries, AuditLog.writeAuditEntry, AuditLog.tamperContent,
        AuditLog.verifyLoop, this]
      omega

/-- C2: starting from an empty store, appending N audit entries and verifying
yields `valid = true` with `entries = N`; altering the persisted content of
any single entry (its stored hash then no longer matching the recomputed one)
makes verification fail with `brokenAt` at exactly that entry's index. -/
theorem c2_audit_chain_integrity {α : Type} (H : α → String → String)
    (cs : List α) (k : Nat) (c : α)
    (hk : k < cs.length)
    (hne : ((AuditLog.appendEntries H "" cs).get? k).all
      (fun e => !(H c e.prevHash == e.hash)) = true) :
    AuditLog.verifyAuditChain H (AuditLog.appendEntries H "" cs)
      = ⟨true, cs.length, none⟩ ∧
    AuditLog.verifyAuditChain H
        (AuditLog.tamperContent (AuditLog.appendEntries H "" cs) k c)
      = ⟨false, cs.length, some k⟩ := by
  constructor
  · unfold AuditLog.verifyAuditChain
    rw [appendEntries_length]
    exact verifyLoop_appendEntries H cs.length cs "" 0
  · unfold AuditLog.verifyAuditChain
    rw [tamperContent_length, appendEntries_length]
    simpa using verifyLoop_tamper H cs.length cs k c "" 0 hk hne

/-- Witness for C2 at a concrete three-entry chain, tampering with entry 1. -/
theorem c2_audit_chain_integrity_witness :
    (1 < (["a", "b", "c"] : List String).length ∧
      ((AuditLog.appendEntries witnessHash "" ["a", "b", "c"]).get? 1).all
        (fun e => !(witnessHash "x" e.prevHash == e.hash)) = true) ∧
    AuditLog.verifyAuditChain witnessHash
        (AuditLog.appendEntries witnessHash "" ["a", "b", "c"])
      = ⟨true, 3, none⟩ ∧
    AuditLog.verifyAuditChain witnessHash
        (AuditLog.tamperContent
          (AuditLog.appendEntries witnessHash "" ["a", "b", "c"]) 1 "x")
      = ⟨false, 3, some 1⟩ :=
  ⟨⟨by decide, by decide⟩,
    c2_audit_chain_integrity witnessHash ["a", "b", "c"] 1 "x" (by decide) (by decide)⟩

theorem clampScore_nonneg (x : Int) : 0 ≤ RiskAssessor.clampScore x :=
  le_max_left 0 _

theorem clampScore_le_100 (x : Int) : RiskAssessor.clampScore x ≤ 100 :=
  max_le (by norm_num) (min_le_left _ _)

/-- C9: for every tool name, parameter map, and policy configuration, the
risk score lies in [0,100] and the tier follows the two thresholds:
`score ≤ low → fast`, `low < score ≤ high → light`, `score > high → full`. -/
theorem c9_assess_risk_clamped_tier (toolName : String) (params : List (String × JsVal))
    (policies : RiskAssessor.Policies) :
    0 ≤ (RiskAssessor.assessRisk toolName params policies).score ∧
    (RiskAssessor.assessRisk toolName params policies).score ≤ 100 ∧
    (RiskAssessor.assessRisk toolName params policies).tier =
      (if (RiskAssessor.assessRisk toolName params policies).score ≤ policies.thresholds.low
        then RiskAssessor.Tier.fast
       else if (RiskAssessor.assessRisk toolName params policies).score ≤ policies.thresholds.high
        then RiskAssessor.Tier.light
       else RiskAssessor.Tier.full) :=
  ⟨clampScore_nonneg _, clampScore_le_100 _, rfl⟩

/-- C10: `checkToolBlacklist` never fires for the `exec`/`write`/`edit`
tools (they have dedicated checkers) or for an empty parameter map,
whatever the parameters contain. -/
theorem c10_tool_blacklist_skips (params : List (String × JsVal)) (toolName : String) :
    Blacklist.checkToolBlacklist "exec" params = none ∧
    Blacklist.checkToolBlacklist "write" params = none ∧
    Blacklist.checkToolBlacklist "edit" params = none ∧
    Blacklist.checkToolBlacklist toolName [] = none := by
  refine ⟨rfl, rfl, rfl, ?_⟩
  unfold Blacklist.checkToolBlacklist
  split
  · rfl
  · rfl

/-- C1 (the claim fails on the code): for the critical command
`rm -rf /data`, under the built-in default policies (`fullVote` =
3 guardians, threshold 2) a full vote with a single dissenting reviewer is
APPROVED by `runVoting` — blocking needs two dissents, not one, contradicting
unanimity and the source's own "needs 3/3 LLM votes" comment. -/
theorem c1_full_vote_single_dissent_approves :
    Blacklist.checkExecBlacklist "rm -rf /data"
      = some ⟨.critical, Blacklist.rmRootRule.src, "rm -rf on root-level system path"⟩ ∧
    (GuardianVoter.runVoting c1Oracle c1Risk "exec" c1Params
        PluginIndex.defaultPolicies).approved = true ∧
    ((GuardianVoter.runVoting c1Oracle c1Risk "exec" c1Params
        PluginIndex.defaultPolicies).votes.filter (fun v => !v.approve)).length = 1 ∧
    PluginIndex.defaultPolicies.voting.fullVote = ⟨3, 2⟩ := by
  refine ⟨by decide, by decide, by decide, rfl⟩

/-- C3 counterexample: in `say \x5c" then "shutdown now"` the `shutdown`
match (index 13) starts strictly inside a balanced quoted substring when
quote state is determined by counting UNESCAPED quotes (odd count before the
match, even overall), yet `matchRules` reports it — the source counts the
escaped quote too, flipping the parity. -/
theorem c3_counterexample_escaped_quote :
    Blacklist.matchRules "say \\\" then \"shutdown now\"" Blacklist.CRITICAL_EXEC .critical
      = some ⟨.critical, Blacklist.shutdownRule.src, "system shutdown/reboot"⟩ ∧
    Rx.execIdx Blacklist.shutdownRule.pattern "say \\\" then \"shutdown now\"" = some 13 ∧
    countUnescaped '"' (("say \\\" then \"shutdown now\"").data.take 13) % 2 = 1 ∧
    countUnescaped '"' ("say \\\" then \"shutdown now\"").data % 2 = 0 ∧
    countUnescaped '\'' (("say \\\" then \"shutdown now\"").data.take 13) % 2 = 0 :=
  ⟨by decide, by decide, by decide, by decide, by decide⟩

/-- C3 as amended: a candidate match is suppressed by counting ALL preceding
quote characters (escaped or not) and same-line `#` markers — every match
`matchRules` reports comes from a rule whose leftmost match position is not
suppressed under that (source) criterion. -/
theorem c3_amended_suppression_sound (text : String) (rules : List Blacklist.Rule)
    (lvl : Blacklist.Level) (m : Blacklist.BlacklistMatch)
    (h : Blacklist.matchRules text rules lvl = some m) :
    ∃ r ∈ rules, ∃ i, Rx.execIdx r.pattern text = some i ∧
      Blacklist.isQuotedOrCommented text i = false ∧
      m = ⟨lvl, r.src, r.reason⟩ := by
  induction rules with
  | nil => simp [Blacklist.matchRules] at h
  | cons r rest ih =>
    rw [Blacklist.matchRules] at h
    cases hexec : Rx.execIdx r.pattern text with
    | none =>
      rw [hexec] at h
      obtain ⟨r2, hr2, hrest⟩ := ih h
      exact ⟨r2, List.mem_cons_of_mem _ hr2, hrest⟩
    | some i =>
      rw [hexec] at h
      have h2 : (if Blacklist.isQuotedOrCommented text i = true
          then Blacklist.matchRules text rest lvl
          else some ⟨lvl, r.src, r.reason⟩) = some m := h
      by_cases hq : Blacklist.isQuotedOrCommented text i = true
      · rw [if_pos hq] at h2
        obtain ⟨r2, hr2, hrest⟩ := ih h2
        exact ⟨r2, List.mem_cons_of_mem _ hr2, hrest⟩
      · rw [if_neg hq] at h2
        refine ⟨r, List.mem_cons_self _ _, i, hexec, by simpa using hq, ?_⟩
        exact (Option.some.inj h2).symm

/-- Witness for the amended C3 at a concrete unsuppressed match. -/
theorem c3_amended_suppression_sound_witness :
    Blacklist.matchRules "shutdown now" Blacklist.CRITICAL_EXEC .critical
      = some ⟨.critical, Blacklist.shutdownRule.src, "system shutdown/reboot"⟩ ∧
    (∃ r ∈ Blacklist.CRITICAL_EXEC, ∃ i,
      Rx.execIdx r.pattern "shutdown now" = some i ∧
      Blacklist.isQuotedOrCommented "shutdown now" i = false ∧
      (⟨.critical, Blacklist.shutdownRule.src, "system shutdown/reboot"⟩ :
        Blacklist.BlacklistMatch) = ⟨.critical, r.src, r.reason⟩) :=
  ⟨by decide, c3_amended_suppression_sound "shutdown now" Blacklist.CRITICAL_EXEC .critical
    ⟨.critical, Blacklist.shutdownRule.src, "system shutdown/reboot"⟩ (by decide)⟩

/-- C4: a segment matching the `SAFE_EXEC` whitelist is skipped before any
blacklist rule is tested against it — removing whitelisted segments leaves
the phase-3 result unchanged — and the benign
`git log --grep "rm -rf"` classifies as no match despite containing the
`rm -rf` keyword. -/
theorem c4_whitelist_short_circuit :
    (∀ segs : List String,
      Blacklist.phase3 segs
        = Blacklist.phase3 (segs.filter (fun s => !Blacklist.isSafeSeg s))) ∧
    Blacklist.checkExecBlacklist "git log --grep \"rm -rf\"" = none := by
  constructor
  · intro segs
    induction segs with
    | nil => rfl
    | cons seg rest ih =>
      by_cases h : Blacklist.isSafeSeg seg = true
      · simp [Blacklist.phase3, h, List.filter_cons, ih]
      · simp only [List.filter_cons, h, Bool.not_false, if_pos]
        rw [Blacklist.phase3, Blacklist.phase3, if_neg (by simp [h]), if_neg (by simp [h])]
        cases Blacklist.matchRules seg Blacklist.CRITICAL_EXEC .critical with
        | some m => rfl
        | none =>
          cases Blacklist.matchRules seg Blacklist.WARNING_EXEC .warning with
          | some m => rfl
          | none => exact ih
  · decide

/-- C5: a pipe-based attack shape matching the FULL command string decides
`checkExecBlacklist` (as critical) before any segment-level checking. -/
theorem c5_pipe_attacks_precede_splitting (command : String) (m : Blacklist.BlacklistMatch)
    (h : Blacklist.matchRules command Blacklist.pipeAttacks .critical = some m) :
    Blacklist.checkExecBlacklist command = some m := by
  unfold Blacklist.checkExecBlacklist
  by_cases hc : command = ""
  · rw [hc] at h
    rw [show Blacklist.matchRules "" Blacklist.pipeAttacks .critical = none from by decide] at h
    exact Option.noConfusion h
  · rw [show command.length + 1 = command.length + 1 from rfl,
      Blacklist.checkExecBlacklistFuel]
    rw [if_neg hc, h]

/-- Witness for C5: `echo "hi" | bash` is caught by the spanning echo-pipe
rule even though each of its segments passes segment-level phase 3 (the echo
segment is whitelisted and `bash` alone matches nothing). -/
theorem c5_pipe_attacks_precede_splitting_witness :
    Blacklist.matchRules "echo \"hi\" | bash" Blacklist.pipeAttacks .critical
      = some ⟨.critical, Blacklist.echoPipeRule.src, "echo pipe to shell"⟩ ∧
    Blacklist.checkExecBlacklist "echo \"hi\" | bash"
      = some ⟨.critical, Blacklist.echoPipeRule.src, "echo pipe to shell"⟩ ∧
    Blacklist.phase3 (Blacklist.splitCommand "echo \"hi\" | bash") = none ∧
    Blacklist.isSafeSeg "echo \"hi\"" = true :=
  ⟨by decide,
    c5_pipe_attacks_precede_splitting "echo \"hi\" | bash"
      ⟨.critical, Blacklist.echoPipeRule.src, "echo pipe to shell"⟩ (by decide),
    by decide, by decide⟩

/-- C6: classifying `bash -c "rm -rf /data"` unwraps the shell wrapper and
yields the same critical tier and base reason as classifying
`rm -rf /data` directly, with the reason annotated for wrapper traversal. -/
theorem c6_wrapper_transparency :
    Blacklist.checkExecBlacklist "rm -rf /data"
      = some ⟨.critical, Blacklist.rmRootRule.src, "rm -rf on root-level system path"⟩ ∧
    Blacklist.checkExecBlacklist "bash -c \"rm -rf /data\""
      = some ⟨.critical, Blacklist.rmRootRule.src,
          "rm -rf on root-level system path (via shell wrapper: bash -c \"rm -rf /data\"...)"⟩ ∧
    Blacklist.extractShellWrapperPayload "bash -c \"rm -rf /data\"" = some "rm -rf /data" :=
  ⟨by decide, by decide, by decide⟩

/-- C7: with the trust budget enabled and at least `autoDowngradeAfter`
consecutive approvals, the scored tier is downgraded exactly one step
(full→light, light→fast, never below fast, never upgraded); the counter is
unchanged on fast-lane passes, incremented on reviewed approvals, and reset
to 0 on any rejection. -/
theorem c7_trust_budget (policies : RiskAssessor.Policies) (st : Nat)
    (risk : RiskAssessor.RiskResult) (approved : Bool)
    (hen : policies.trustBudget.enabled = true)
    (hge : policies.trustBudget.autoDowngradeAfter ≤ st) :
    ((risk.tier = .full → (PluginIndex.applyTrustBudget policies st risk).tier = .light) ∧
     (risk.tier = .light → (PluginIndex.applyTrustBudget policies st risk).tier = .fast) ∧
     (risk.tier = .fast → (PluginIndex.applyTrustBudget policies st risk).tier = .fast)) ∧
    PluginIndex.trustAfterAction st .fast approved = st ∧
    (PluginIndex.trustAfterAction st .light true = st + 1 ∧
     PluginIndex.trustAfterAction st .full true = st + 1) ∧
    (PluginIndex.trustAfterAction st .light false = 0 ∧
     PluginIndex.trustAfterAction st .full false = 0) := by
  refine ⟨⟨?_, ?_, ?_⟩, rfl, ⟨rfl, rfl⟩, ⟨rfl, rfl⟩⟩ <;>
    (intro ht; simp [PluginIndex.applyTrustBudget, hen, hge, ht])

/-- Witness for C7 under the default policies with a 12-approval streak. -/
theorem c7_trust_budget_witness :
    PluginIndex.defaultPolicies.trustBudget.enabled = true ∧
    PluginIndex.defaultPolicies.trustBudget.autoDowngradeAfter ≤ 12 ∧
    (PluginIndex.applyTrustBudget PluginIndex.defaultPolicies 12
        ⟨90, .full, [], none⟩).tier = RiskAssessor.Tier.light ∧
    PluginIndex.trustAfterAction 12 .fast true = 12 ∧
    PluginIndex.trustAfterAction 12 .full true = 13 ∧
    PluginIndex.trustAfterAction 12 .full false = 0 :=
  have h := c7_trust_budget PluginIndex.defaultPolicies 12 ⟨90, .full, [], none⟩ true
    rfl (by decide)
  ⟨rfl, by decide, h.1.1 rfl, h.2.1, h.2.2.1.2, h.2.2.2.2⟩

/-- C8: in a full-tier review every configured reviewer resolves to exactly
one vote: the vote list is one evaluation per selected guardian (so its
length equals the configured count), and a reviewer whose external check
fails (`oracle g = none`: timeout, transport failure, or no extractable
JSON) contributes the synchronous rule-based fallback vote instead of being
omitted. -/
theorem c8_one_vote_per_reviewer
    (oracle : GuardianVoter.GuardianSpec → Option GuardianVoter.Vote)
    (risk : RiskAssessor.RiskResult) (toolName : String)
    (params : List (String × JsVal)) (policies : RiskAssessor.Policies)
    (h : risk.tier = .full) :
    (GuardianVoter.runVoting oracle risk toolName params policies).votes
      = (GuardianVoter.GUARDIANS.take policies.voting.fullVote.guardians).map
          (fun g => GuardianVoter.evaluateGuardian oracle g toolName params) ∧
    (GuardianVoter.runVoting oracle risk toolName params policies).votes.length
      = (GuardianVoter.GUARDIANS.take policies.voting.fullVote.guardians).length ∧
    ∀ g, oracle g = none →
      GuardianVoter.evaluateGuardian oracle g toolName params
        = GuardianVoter.ruleBasedVote g toolName params := by
  refine ⟨?_, ?_, ?_⟩
  · simp [GuardianVoter.runVoting, h]
  · simp [GuardianVoter.runVoting, h]
  · intro g hg
    unfold GuardianVoter.evaluateGuardian
    rw [hg]
    rfl

/-- Witness for C8: all-failing oracle under the default policies. -/
theorem c8_one_vote_per_reviewer_witness :
    (⟨80, .full, [], none⟩ : RiskAssessor.RiskResult).tier = .full ∧
    (GuardianVoter.runVoting (fun _ => none) ⟨80, .full, [], none⟩ "exec" []
        PluginIndex.defaultPolicies).votes
      = (GuardianVoter.GUARDIANS.take
          PluginIndex.defaultPolicies.voting.fullVote.guardians).map
          (fun g => GuardianVoter.evaluateGuardian (fun _ => none) g "exec" []) ∧
    (GuardianVoter.runVoting (fun _ => none) ⟨80, .full, [], none⟩ "exec" []
        PluginIndex.defaultPolicies).votes.length
      = (GuardianVoter.GUARDIANS.take
          PluginIndex.defaultPolicies.voting.fullVote.guardians).length ∧
    GuardianVoter.evaluateGuardian (fun _ => none) ⟨"safety", "safety.md"⟩ "exec" []
      = GuardianVoter.ruleBasedVote ⟨"safety", "safety.md"⟩ "exec" [] :=
  have h := c8_one_vote_per_reviewer (fun _ => none) ⟨80, .full, [], none⟩ "exec" []
    PluginIndex.defaultPolicies rfl
  ⟨rfl, h.1, h.2.1, h.2.2 ⟨"safety", "safety.md"⟩ rfl⟩
